import Mathlib

/-!
Verification of the LibreChat-Ollama request-time context pipeline
(`app/context/*`, `app/services/embedding_service.py`,
`app/controllers/inference_controller.py`) through a shallow embedding.

Conventions of the embedding:
* Python floats are modelled as exact rationals (`ℚ`); the float square root
  used by `np.linalg.norm` has no exact rational counterpart, so it is
  abstracted as a parameter `sq : ℚ → ℚ`; no claim proved here depends on its
  values beyond `sq 0 = 0` (true of the real square root).
* Python dicts with known keys are structures whose fields are `Option`-valued
  (`none` models an absent key); `get` with a default is `Option.getD`.
* External HTTP calls and collaborator calls are parameters of type
  `Except PyErr _`, the error constructor modelling a raised exception.
* In-place mutation of a dict is modelled by returning the updated value.
-/

/-- Exceptions observable in the modelled code paths. -/
inductive PyErr where
  | typeError (msg : String)
  | attributeError (msg : String)
  | other (msg : String)
deriving Repr, DecidableEq

/-- Python `str.lower()` (ASCII case folding, which covers every string the
pipeline compares). -/
def pyToLower (s : String) : String :=
  ⟨s.data.map Char.toLower⟩

/-- Python `str.strip()`: remove leading and trailing whitespace. -/
def pyStrip (s : String) : String :=
  ⟨((s.data.dropWhile Char.isWhitespace).reverse.dropWhile Char.isWhitespace).reverse⟩

/-- Python `sub in s` substring test. -/
def pyContains (sub s : String) : Bool :=
  decide (sub.data <:+: s.data)

/-- Worker for Python `str.split()` (split on whitespace runs, dropping empty
pieces): `acc` is the current word, reversed. -/
def splitWsGo : List Char → List Char → List (List Char)
  | [], acc => if acc.isEmpty then [] else [acc.reverse]
  | ch :: rest, acc =>
    if ch.isWhitespace then
      if acc.isEmpty then splitWsGo rest [] else acc.reverse :: splitWsGo rest []
    else
      splitWsGo rest (ch :: acc)

/-- Python `str.split()` with no separator argument. -/
def pySplitWs (s : String) : List String :=
  (splitWsGo s.data []).map fun w => ⟨w⟩

/-- Index of the last occurrence of `c` in `l`, if any (Python `str.rfind`). -/
def lastIdxOf (c : Char) : List Char → Option Nat
  | [] => none
  | x :: xs =>
    match lastIdxOf c xs with
    | some i => some (i + 1)
    | none => if x = c then some 0 else none

/-- The extension component of `os.path.splitext(p)` (posix): the suffix from
the last `.` of the final path segment, unless every character of that segment
before the dot is itself a dot (leading dots never start an extension). -/
def pySplitextExt (p : String) : String :=
  let l := p.data
  match lastIdxOf '.' l with
  | none => ""
  | some d =>
    let fi : Nat :=
      match lastIdxOf '/' l with
      | none => 0
      | some s => s + 1
    if fi ≤ d ∧ ((l.drop fi).take (d - fi)).any (· ≠ '.') then ⟨l.drop d⟩ else ""

/-- A code chunk: the dict shape produced by the retriever and consumed by the
scorer/formatter. `none` models an absent key. -/
structure Chunk where
  content : Option String := none
  file_path : Option String := none
  ast_type : Option String := none
  embedding : Option (List ℚ) := none
  score : Option ℚ := none
  similarity : Option ℚ := none
  ast_boost : Option ℚ := none
  file_boost : Option ℚ := none
deriving Repr, DecidableEq

/-- An element of the `chunks` list as Python sees it — the
`List[Dict[str, Any]]` annotation is not enforced at runtime:
* `dict c`: a well-formed chunk dict, scored without error;
* `bad`: a non-dict object, on which the loop's very first access
  `chunk.get("embedding")` (chunk_scorer.py, line 96) raises before any
  mutation;
* `badBoost c`: a dict like `c` whose `ast_type` (or `file_path`) holds a
  value the boost lookups choke on — e.g. an unhashable `ast_type` raising
  `TypeError` in `self.ast_boosts.get(ast_type, ...)` (line 107) or a
  non-string `file_path` raising in `os.path.splitext` (line 111). The raise
  happens *after* `chunk["embedding"] = chunk_embedding` (line 100), so this
  element is returned with its embedding freshly cached; the raising field
  itself has no typed representation in `Chunk`, which is exactly why it
  raises. -/
inductive PyChunk where
  | dict : Chunk → PyChunk
  | bad : PyChunk
  | badBoost : Chunk → PyChunk
deriving Repr, DecidableEq

namespace EmbeddingService

/-- The decoded reply of the embedding backend: HTTP status and the
`data.get("embedding", [])` field. -/
structure BackendReply where
  status_code : Nat
  embedding : List ℚ
deriving Repr, DecidableEq

/-- `EmbeddingService.embed` (embedding_service.py, lines 35-76): empty or
whitespace-only text, a raised request, or a non-200 status give the zero
vector of length `dims`; otherwise the backend vector is truncated to `dims`
when longer and right-padded with zeros when shorter. -/
def embed (dims : Nat) (backend : Except PyErr BackendReply) (text : String) : List ℚ :=
  if pyStrip text = "" then List.replicate dims 0
  else
    match backend with
    | .error _ => List.replicate dims 0
    | .ok r =>
      if r.status_code ≠ 200 then List.replicate dims 0
      else if dims < r.embedding.length then r.embedding.take dims
      else r.embedding ++ List.replicate (dims - r.embedding.length) 0

end EmbeddingService

/-- Sum of squares of a vector; `np.linalg.norm v = sqrt (sumSq v)`, so the
norm is zero exactly when `sumSq` is zero. -/
def sumSq (v : List ℚ) : ℚ :=
  (v.map fun x => x * x).sum

/-- Dot product (`np.dot` on equal-length 1-d vectors). -/
def dotQ (a b : List ℚ) : ℚ :=
  (List.zipWith (· * ·) a b).sum

/-- `ChunkRelevanceScorer._cosine_similarity` (chunk_scorer.py, lines 133-166).
`sq` abstracts the float square root of `np.linalg.norm`. A `none` vector is
Python `None`. `np.dot` on vectors of different lengths raises `ValueError`,
which the method's own handler turns into `0.0`. The division is reached only
when both norms are nonzero. -/
def cosineSim (sq : ℚ → ℚ) (v1 v2 : Option (List ℚ)) : ℚ :=
  match v1, v2 with
  | none, _ => 0
  | _, none => 0
  | some a, some b =>
    if a.length ≠ b.length then 0
    else
      let n1 := sq (sumSq a)
      let n2 := sq (sumSq b)
      if n1 = 0 ∨ n2 = 0 then 0 else dotQ a b / (n1 * n2)

namespace ChunkRelevanceScorer

/-- The `self.ast_boosts` table with its `.get(ast_type, self.ast_boosts["default"])`
lookup (chunk_scorer.py, lines 31-49 and 104-105): any key not in the table,
and the explicit `"docstring"` / `"default"` entries, give `0.0`. -/
def astBoostOf (t : String) : ℚ :=
  if t = "class" then 0.15
  else if t = "function" then 0.15
  else if t = "method" then 0.15
  else if t = "variable" then 0.05
  else if t = "constant" then 0.05
  else if t = "property" then 0.05
  else if t = "import" then -0.1
  else if t = "comment" then -0.1
  else if t = "docstring" then 0
  else 0

/-- The `self.file_type_boosts` table keyed by lower-cased extension
(chunk_scorer.py, lines 51-72 and 107-110), default `0.0`. -/
def fileExtBoostOf (ext : String) : ℚ :=
  if ext = ".py" then 0.1
  else if ext = ".js" then 0.1
  else if ext = ".ts" then 0.1
  else if ext = ".jsx" then 0.1
  else if ext = ".tsx" then 0.1
  else if ext = ".json" then 0.05
  else if ext = ".yaml" then 0.05
  else if ext = ".yml" then 0.05
  else if ext = ".md" then -0.05
  else if ext = ".txt" then -0.05
  else 0

/-- `file_boost` of a chunk's `file_path`:
`self.file_type_boosts.get(os.path.splitext(file_path)[1].lower(), 0.0)`. -/
def fileBoostOf (path : String) : ℚ :=
  fileExtBoostOf (pyToLower (pySplitextExt path))

/-- The embedding the scorer uses for a chunk: the cached `chunk["embedding"]`
when present, else `embedding_service.embed(chunk.get("content", ""))`
(`emb` is the embedding service, which never raises). -/
def effEmbedding (emb : String → List ℚ) (c : Chunk) : List ℚ :=
  match c.embedding with
  | some e => e
  | none => emb (c.content.getD "")

/-- One iteration of the scoring loop on a well-formed chunk dict
(chunk_scorer.py, lines 94-121): caches the embedding and stores
`score = similarity + ast_boost + file_boost` with its components. -/
def annotateChunk (sq : ℚ → ℚ) (emb : String → List ℚ) (qe : List ℚ) (c : Chunk) : Chunk :=
  let ce := effEmbedding emb c
  let sim := cosineSim sq (some qe) (some ce)
  let astB := astBoostOf (c.ast_type.getD "default")
  let fileB := fileBoostOf (c.file_path.getD "")
  { c with
      embedding := some ce
      score := some (sim + astB + fileB)
      similarity := some sim
      ast_boost := some astB
      file_boost := some fileB }

/-- The `chunk["embedding"] = chunk_embedding` cache (chunk_scorer.py,
line 100): executed when the key was absent; when it was present the stored
value equals the existing one, so the dict's value is the same either way. -/
def cacheEmbedding (emb : String → List ℚ) (c : Chunk) : Chunk :=
  { c with embedding := some (effEmbedding emb c) }

/-- The sort key `lambda c: c["score"]`; by the time the sort runs every
element is an annotated dict, so the fallback arms are dead. -/
def pyScoreKey : PyChunk → ℚ
  | .dict c => c.score.getD 0
  | .bad => 0
  | .badBoost _ => 0

/-- Boolean comparison realising Python's `sorted(key=score, reverse=True)`
order: `a` may precede `b` when `b`'s score is at most `a`'s. -/
def geaScore (a b : PyChunk) : Bool :=
  decide (pyScoreKey b ≤ pyScoreKey a)

/-- The `for chunk in chunks` scoring loop with its in-place dict mutation
(chunk_scorer.py, lines 93-121): elements are processed left to right
(`Bool` result `false` when an iteration raised). A `bad` element raises at
`chunk.get("embedding")` before any mutation, leaving it and everything
after it untouched. A `badBoost` element first caches its embedding
(line 100) and then raises in the boost lookups (lines 107/111), so it is
returned with the embedding cached while everything after it stays
untouched. Earlier dicts keep their stored scores. -/
def scoreMutate (sq : ℚ → ℚ) (emb : String → List ℚ) (qe : List ℚ) :
    List PyChunk → List PyChunk × Bool
  | [] => ([], true)
  | .bad :: rest => (.bad :: rest, false)
  | .badBoost c :: rest => (.badBoost (cacheEmbedding emb c) :: rest, false)
  | .dict c :: rest =>
    let r := scoreMutate sq emb qe rest
    (.dict (annotateChunk sq emb qe c) :: r.1, r.2)

/-- `ChunkRelevanceScorer.score_chunks` (chunk_scorer.py, lines 74-131):
empty input returns `[]`; otherwise the loop annotates the chunks and, when no
exception occurred, `sorted(chunks, key=lambda c: c["score"], reverse=True)`
— a stable descending sort, realised by the stable `List.mergeSort` — is
returned; on an exception the `except` branch returns the list as mutated so
far, in its original order. -/
def score_chunks (sq : ℚ → ℚ) (emb : String → List ℚ) (query : String)
    (chunks : List PyChunk) : List PyChunk :=
  if chunks.isEmpty then []
  else
    let qe := emb query
    let r := scoreMutate sq emb qe chunks
    if r.2 then r.1.mergeSort geaScore else r.1

end ChunkRelevanceScorer

namespace ContextFormatter

/-- The `max_tokens` default of `ContextFormatter.__init__`. -/
def defaultMaxTokens : Nat := 8000

/-- `token_estimate = len(content.split())` (context_formatter.py, line 57). -/
def tokenEstimate (c : Chunk) : Nat :=
  (pySplitWs (c.content.getD "")).length

/-- Fixed two-decimal rendering of the relevance score (`{score:.2f}`);
decimal float rendering is modelled by rounding the rational to hundredths.
No claim depends on this rendered text. -/
def fmtQ2 (q : ℚ) : String :=
  let sgn := if q < 0 then "-" else ""
  let c : ℤ := round (|q| * 100)
  let ip := c / 100
  let fp := (c % 100).toNat
  sgn ++ toString ip ++ "." ++ (if fp < 10 then "0" else "") ++ toString fp

/-- The rendered block for one included chunk (context_formatter.py,
lines 50-68), with the `.get` defaults of the source. -/
def fmtChunk (includeMeta : Bool) (c : Chunk) : String :=
  if includeMeta then
    "--- File: " ++ c.file_path.getD "unknown" ++ " | Type: " ++ c.ast_type.getD "unknown" ++
      " | Relevance: " ++ fmtQ2 (c.score.getD 0) ++ " ---\n" ++ c.content.getD "" ++ "\n"
  else
    "--- " ++ c.file_path.getD "unknown" ++ " ---\n" ++ c.content.getD "" ++ "\n"

/-- The formatting loop (context_formatter.py, lines 48-72): walk the chunks
in order with a running token total and `break` on the first chunk whose
estimate would push the total over `maxTokens`. -/
def fmtLoop (maxTokens : Nat) (includeMeta : Bool) : Nat → List Chunk → List String
  | _, [] => []
  | total, c :: rest =>
    let est := tokenEstimate c
    if maxTokens < total + est then []
    else fmtChunk includeMeta c :: fmtLoop maxTokens includeMeta (total + est) rest

/-- `ContextFormatter.format_chunks` (context_formatter.py, lines 29-80):
empty input gives `""`; otherwise the included blocks are joined with
`"\n"`. -/
def format_chunks (maxTokens : Nat) (includeMeta : Bool) (chunks : List Chunk) : String :=
  if chunks.isEmpty then ""
  else String.intercalate "\n" (fmtLoop maxTokens includeMeta 0 chunks)

/-- The number of chunks the loop includes, as a function of the token
estimates alone. -/
def stopCount (maxTokens : Nat) : Nat → List Nat → Nat
  | _, [] => 0
  | total, e :: rest =>
    if maxTokens < total + e then 0
    else stopCount maxTokens (total + e) rest + 1

end ContextFormatter

namespace RoleAwareContextInjector

/-- `self.role_keywords` (role_context_injector.py, lines 36-67), with the
dict's `.get(role, role_keywords["default"])` fallback folded in. -/
def roleKeywords (role : String) : List String :=
  if role = "frontend" then
    ["ui", "view", "component", "html", "css", "jsx", "tsx", "react",
     "angular", "vue", "dom", "style", "client", "browser"]
  else if role = "backend" then
    ["controller", "service", "model", "api", "db", "database", "server",
     "route", "endpoint", "query", "repository", "dao"]
  else if role = "devops" then
    ["deploy", "ci", "cd", "pipeline", "docker", "kubernetes", "k8s",
     "container", "config", "env", "environment"]
  else if role = "security" then
    ["auth", "authentication", "authorization", "permission", "role",
     "encrypt", "decrypt", "hash", "token", "jwt", "oauth"]
  else if role = "refactor" then ["any"]
  else ["any"]

/-- `self.role_file_patterns` (role_context_injector.py, lines 69-100), with
the dict's `.get(role, role_file_patterns["default"])` fallback folded in. -/
def roleFilePatterns (role : String) : List String :=
  if role = "frontend" then
    [".js", ".jsx", ".ts", ".tsx", ".html", ".css", ".scss", ".vue",
     "component", "view", "page", "client", "front", "ui"]
  else if role = "backend" then
    [".py", ".java", ".rb", ".go", ".php", ".cs",
     "controller", "service", "model", "repository", "dao",
     "api", "server", "backend"]
  else if role = "devops" then
    ["Dockerfile", "docker-compose", ".yml", ".yaml", ".tf",
     "pipeline", "deploy", "config", ".env", "k8s"]
  else if role = "security" then
    ["auth", "security", "permission", "role", "encrypt", "policy"]
  else if role = "refactor" then []
  else []

/-- Lower-cased `chunk.get("file_path", "")`. -/
def lowerPath (c : Chunk) : String :=
  pyToLower (c.file_path.getD "")

/-- `RoleAwareContextInjector._filter_by_role` (role_context_injector.py,
lines 173-233). -/
def filterByRole (role : String) (chunks : List Chunk) : List Chunk :=
  let keywords := roleKeywords role
  let filePatterns := roleFilePatterns role
  if keywords.contains "any" ∨ (keywords.isEmpty ∧ filePatterns.isEmpty) then chunks
  else if role = "backend" then
    chunks.filter fun c => pyContains "controller" (lowerPath c) || pyContains "service" (lowerPath c)
  else if role = "frontend" then
    chunks.filter fun c => pyContains "frontend" (lowerPath c) || pyContains ".jsx" (lowerPath c)
  else if role = "devops" then
    chunks.filter fun c => pyContains "dockerfile" (lowerPath c)
  else
    chunks.filter fun c =>
      filePatterns.any (fun p => pyContains (pyToLower p) (lowerPath c)) ||
        (roleKeywords role).any fun k => pyContains (pyToLower k) (pyToLower (c.content.getD ""))

/-- The role dispatch inside `inject` (role_context_injector.py,
lines 128-152): hard-coded substring filters for `backend` / `frontend` /
`devops`, pass-through for `refactor` / `default`, `_filter_by_role`
otherwise. -/
def roleFilterOf (role : String) (chunks : List Chunk) : List Chunk :=
  if role = "backend" then
    chunks.filter fun c => pyContains "controller" (lowerPath c) || pyContains "service" (lowerPath c)
  else if role = "frontend" then
    chunks.filter fun c => pyContains "frontend" (lowerPath c) || pyContains ".jsx" (lowerPath c)
  else if role = "devops" then
    chunks.filter fun c => pyContains "dockerfile" (lowerPath c)
  else if role = "refactor" ∨ role = "default" then chunks
  else filterByRole role chunks

/-- `RoleAwareContextInjector.inject` (role_context_injector.py,
lines 103-171). The constructor lower-cases the role; the retriever call is a
parameter (`getChunks`), an exception anywhere giving `[]` through the
method's own handler; an empty filter result falls back to the full candidate
set, which is then scored and truncated to `maxChunks`. -/
def inject (sq : ℚ → ℚ) (emb : String → List ℚ) (role : String)
    (getChunks : Except PyErr (List Chunk)) (query : String) (maxChunks : Nat) :
    List PyChunk :=
  let roleL := pyToLower role
  match getChunks with
  | .error _ => []
  | .ok allChunks =>
    if allChunks.isEmpty then []
    else
      let filtered := roleFilterOf roleL allChunks
      let used := if filtered.isEmpty then allChunks else filtered
      (ChunkRelevanceScorer.score_chunks sq emb query (used.map PyChunk.dict)).take maxChunks

end RoleAwareContextInjector

namespace InferenceController

/-- The decoded reply of the generation backend: HTTP status and
`data.get("response", "")`. -/
structure GenReply where
  status_code : Nat
  response_field : String
deriving Repr, DecidableEq

/-- The `metadata` object of a successful `generate_response`. -/
structure GenMetadata where
  model : String
  role : String
  chunks_used : Nat
  context_length : Nat
  response_length : Nat
deriving Repr, DecidableEq

/-- The dictionary `generate_response` returns; `metadata := none` models the
branches whose dict has no `metadata` key. -/
structure GenResult where
  response : String
  context : List Chunk
  success : Bool
  metadata : Option GenMetadata
deriving Repr, DecidableEq

/-- `InferenceController.generate_response` (inference_controller.py,
lines 48-128) with each collaborator call a parameter: `retrieveR` the
`chunk_retriever.retrieve_chunks` outcome, `injectR` the `injector.inject`
call outcome, `formatR` the `self.formatter.format_context` call outcome,
`postR` the `requests.post` outcome. Any raised step lands in the
`except` branch. -/
def generate_response (model role : String)
    (retrieveR : Except PyErr (List Chunk))
    (injectR : Except PyErr (List Chunk))
    (formatR : Except PyErr String)
    (postR : Except PyErr GenReply) : GenResult :=
  let onErr : GenResult := ⟨"Error occurred during inference.", [], false, none⟩
  match retrieveR with
  | .error _ => onErr
  | .ok chunks =>
    if chunks.isEmpty then ⟨"No relevant context found.", [], true, none⟩
    else
      match injectR with
      | .error _ => onErr
      | .ok selected =>
        match formatR with
        | .error _ => onErr
        | .ok formatted =>
          match postR with
          | .error _ => onErr
          | .ok reply =>
            if reply.status_code ≠ 200 then
              ⟨"Error generating response: " ++ toString reply.status_code, [], false, none⟩
            else
              let out := pyStrip reply.response_field
              ⟨out, selected, true,
                some ⟨model, role, selected.length, formatted.length, out.length⟩⟩

/-- The parameter names of `RoleAwareContextInjector.inject`
(role_context_injector.py, line 103): `query`, not `prompt`. -/
def injectParams : List String := ["self", "query", "session_id", "project_id", "max_chunks"]

/-- The methods `ContextFormatter` defines (context_formatter.py): there is no
`format_context`. -/
def contextFormatterMethods : List String := ["format_chunks", "create_prompt_with_context"]

/-- A Python call passing keyword argument `kw`: raises `TypeError` before the
body runs when `kw` is not a parameter name. -/
def kwCall (params : List String) (kw : String) (body : Except PyErr α) : Except PyErr α :=
  if params.contains kw then body
  else .error (.typeError ("unexpected keyword argument " ++ kw))

/-- A Python method call through attribute lookup: raises `AttributeError`
when the object has no method named `m`. -/
def methodCall (methods : List String) (m : String) (body : Except PyErr α) : Except PyErr α :=
  if methods.contains m then body else .error (.attributeError m)

/-- `generate_response` as actually wired in the source: step 2 is
`injector.inject(prompt=prompt, project_id=project_id)`
(inference_controller.py, line 81) against `inject`'s real parameter list, and
step 3 is `self.formatter.format_context(selected_chunks)` (line 84) against
`ContextFormatter`'s real method set. -/
def generate_response_wired (model role : String)
    (retrieveR : Except PyErr (List Chunk))
    (injectBody : Except PyErr (List Chunk))
    (formatBody : Except PyErr String)
    (postR : Except PyErr GenReply) : GenResult :=
  generate_response model role retrieveR
    (kwCall injectParams "prompt" injectBody)
    (methodCall contextFormatterMethods "format_context" formatBody)
    postR

end InferenceController

open ChunkRelevanceScorer ContextFormatter RoleAwareContextInjector InferenceController

/-- The keys of the `ast_boosts` table (besides the `"default"` entry). -/
def astTableKeys : List String :=
  ["class", "function", "method", "variable", "constant", "property",
   "import", "comment", "docstring"]

/-- The keys of the `file_type_boosts` table (besides the `"default"` entry). -/
def fileTableKeys : List String :=
  [".py", ".js", ".ts", ".jsx", ".tsx", ".json", ".yaml", ".yml", ".md", ".txt"]

/-- The element test the scoring loop trips over: `true` exactly on the
non-dict elements. -/
def isBadP : PyChunk → Bool
  | .bad => true
  | .badBoost _ => true
  | .dict _ => false

/-- The in-place effect of one completed loop iteration, lifted to list
elements. Only applied to elements before the first failing one, which are
all dicts; the other arms are never reached. -/
def annotatePy (sq : ℚ → ℚ) (emb : String → List ℚ) (qe : List ℚ) : PyChunk → PyChunk
  | .dict c => .dict (annotateChunk sq emb qe c)
  | .bad => .bad
  | .badBoost c => .badBoost c

/-- The in-place effect of the loop iteration that raises: a non-dict
element is untouched (the raise precedes any mutation), while a dict failing
in the boost lookups has already cached its embedding (chunk_scorer.py,
line 100 runs before lines 107/111). -/
def failStep (emb : String → List ℚ) : PyChunk → PyChunk
  | .badBoost c => .badBoost (cacheEmbedding emb c)
  | p => p

/-- A content of exactly `n` whitespace-separated words. -/
def wordsChars (n : Nat) : List Char :=
  (List.replicate n ['a', ' ']).flatten

/-- A chunk whose content splits into exactly 3000 words. -/
def bigChunk : Chunk := { content := some ⟨wordsChars 3000⟩ }

/-! ## Shared lemmas -/


theorem scoreMutate_dicts (sq : ℚ → ℚ) (emb : String → List ℚ) (qe : List ℚ)
    (l : List Chunk) :
    scoreMutate sq emb qe (l.map PyChunk.dict) =
      (l.map fun c => PyChunk.dict (annotateChunk sq emb qe c), true) := by
  induction l with
  | nil => rfl
  | cons c t ih => simp [scoreMutate, ih]

theorem score_chunks_dicts (sq : ℚ → ℚ) (emb : String → List ℚ) (query : String)
    (l : List Chunk) (h : l ≠ []) :
    score_chunks sq emb query (l.map PyChunk.dict) =
      (l.map fun c => PyChunk.dict (annotateChunk sq emb (emb query) c)).mergeSort geaScore := by
  have hne : (l.map PyChunk.dict).isEmpty = false := by
    simp [List.isEmpty_iff, h]
  simp [score_chunks, hne, scoreMutate_dicts]

theorem sumSq_replicate_zero (n : Nat) : sumSq (List.replicate n (0 : ℚ)) = 0 := by
  induction n with
  | zero => rfl
  | succ k ih =>
    rw [List.replicate_succ]
    simp only [sumSq, List.map_cons, List.sum_cons] at ih ⊢
    rw [ih]
    ring

/-! ## Claims -/

/-- C2: whenever chunk retrieval yields the empty list, `generate_response`
returns immediately with `success = true`, empty context and the literal
response `"No relevant context found."` — for every possible outcome of the
injection, formatting and generation-backend steps, i.e. without the
generation backend being consulted. -/
theorem generate_response_empty_retrieval (model role : String)
    (injectB : Except PyErr (List Chunk)) (formatB : Except PyErr String)
    (postR : Except PyErr GenReply) :
    generate_response_wired model role (.ok []) injectB formatB postR =
      ⟨"No relevant context found.", [], true, none⟩ := rfl

/-- C1 (code evaluation): on the success scenario the claim describes — a
nonempty retrieved chunk list and a generation backend answering HTTP 200
with a response text — the controller as wired in the source returns the
generic failure dictionary with `success = false`: the call
`injector.inject(prompt=...)` uses a keyword that is not among `inject`'s
parameters, and `self.formatter.format_context` is not a method of
`ContextFormatter`, so the `try` block raises and the `except` branch
answers. -/
theorem generate_response_success_path_raises :
    generate_response_wired "codellama:13b" "backend"
        (.ok [{ content := some "def get_user(user_id): ..." },
              { content := some "class UserService: ..." }])
        (.ok [{ content := some "def get_user(user_id): ..." }])
        (.ok "Formatted context")
        (.ok ⟨200, "This is a test response."⟩) =
      ⟨"Error occurred during inference.", [], false, none⟩ := by
  decide

/-- C7: the scorer's cosine similarity is a total function that returns
exactly `0.0` whenever either vector is missing (`None`) or has zero norm —
in particular against any all-zero vector — with the division never reached
in those cases. `sq` is the abstracted float square root of
`np.linalg.norm`; only `sq 0 = 0` (true of the square root) is assumed. -/
theorem cosineSim_zero_cases (sq : ℚ → ℚ) (h0 : sq 0 = 0) :
    (∀ v, cosineSim sq none v = 0) ∧
    (∀ v, cosineSim sq v none = 0) ∧
    (∀ a b, sq (sumSq a) = 0 ∨ sq (sumSq b) = 0 → cosineSim sq (some a) (some b) = 0) ∧
    (∀ n b, cosineSim sq (some (List.replicate n (0 : ℚ))) (some b) = 0) ∧
    (∀ n a, cosineSim sq (some a) (some (List.replicate n (0 : ℚ))) = 0) := by
  have hz : ∀ a b : List ℚ, sq (sumSq a) = 0 ∨ sq (sumSq b) = 0 →
      cosineSim sq (some a) (some b) = 0 := by
    intro a b h
    unfold cosineSim
    by_cases hl : a.length ≠ b.length
    · simp [hl]
    · simp [hl, h]
  refine ⟨fun v => by cases v <;> rfl, fun v => by cases v <;> rfl, hz, ?_, ?_⟩
  · intro n b
    exact hz _ _ (Or.inl (by rw [sumSq_replicate_zero, h0]))
  · intro n a
    exact hz _ _ (Or.inr (by rw [sumSq_replicate_zero, h0]))

/-- C7 witness: the zero-norm cases at concrete inputs. -/
theorem cosineSim_zero_cases_witness :
    cosineSim id none (some [1, 2]) = 0 ∧
    cosineSim id (some [1, 2]) none = 0 ∧
    cosineSim id (some [0, 0]) (some [3, 4]) = 0 ∧
    cosineSim id (some [3, 4]) (some [0, 0, 0]) = 0 := by
  obtain ⟨h1, h2, _, h4, h5⟩ := cosineSim_zero_cases id rfl
  exact ⟨h1 _, h2 _, h4 2 _, h5 3 _⟩

/-- C8: `EmbeddingService.embed` always returns a vector of exactly the
configured dimension: empty/whitespace-only text, a raised request and a
non-200 status give the all-zero vector; a shorter backend vector is
right-padded with zeros and a longer one truncated to its first `dims`
elements. -/
theorem embed_dimension_normalization (dims : Nat)
    (backend : Except PyErr EmbeddingService.BackendReply) (text : String) :
    (EmbeddingService.embed dims backend text).length = dims ∧
    (pyStrip text = "" →
      EmbeddingService.embed dims backend text = List.replicate dims 0) ∧
    (∀ e, backend = .error e →
      EmbeddingService.embed dims backend text = List.replicate dims 0) ∧
    (∀ r, backend = .ok r → r.status_code ≠ 200 →
      EmbeddingService.embed dims backend text = List.replicate dims 0) ∧
    (∀ r, backend = .ok r → r.status_code = 200 → pyStrip text ≠ "" →
      (r.embedding.length ≤ dims →
        EmbeddingService.embed dims backend text =
          r.embedding ++ List.replicate (dims - r.embedding.length) 0) ∧
      (dims < r.embedding.length →
        EmbeddingService.embed dims backend text = r.embedding.take dims)) := by
  refine ⟨?_, ?_, ?_, ?_, ?_⟩
  · unfold EmbeddingService.embed
    split
    · simp
    · match backend with
      | .error e => simp
      | .ok r =>
        by_cases hs : r.status_code ≠ 200
        · simp [hs]
        · by_cases hlen : dims < r.embedding.length
          · simp [hs, hlen]
            try omega
          · simp [hs, hlen]
            try omega
  · intro h; simp [EmbeddingService.embed, h]
  · intro e he; subst he; simp [EmbeddingService.embed]
  · intro r hr hs; subst hr
    unfold EmbeddingService.embed
    split
    · rfl
    · simp [hs]
  · intro r hr hs ht; subst hr
    constructor
    · intro hle
      have : ¬ dims < r.embedding.length := by omega
      simp [EmbeddingService.embed, ht, hs, this]
    · intro hlt
      simp [EmbeddingService.embed, ht, hs, hlt]

/-- C8 witness: padding, truncation and the zero-vector fallbacks at concrete
inputs. -/
theorem embed_dimension_normalization_witness :
    EmbeddingService.embed 4 (.ok ⟨200, [1, 2]⟩) "hi" = [1, 2, 0, 0] ∧
    EmbeddingService.embed 2 (.ok ⟨200, [1, 2, 3]⟩) "hi" = [1, 2] ∧
    EmbeddingService.embed 3 (.ok ⟨500, [1, 2, 3]⟩) "hi" = [0, 0, 0] ∧
    EmbeddingService.embed 3 (.ok ⟨200, [1, 2, 3]⟩) " " = [0, 0, 0] ∧
    (EmbeddingService.embed 5 (.error (.other "down")) "hi").length = 5 := by
  refine ⟨?_, ?_, ?_, ?_, ?_⟩
  · have h := ((embed_dimension_normalization 4 (.ok ⟨200, [1, 2]⟩) "hi").2.2.2.2
      ⟨200, [1, 2]⟩ rfl rfl (by decide)).1 (by decide)
    simpa using h
  · have h := ((embed_dimension_normalization 2 (.ok ⟨200, [1, 2, 3]⟩) "hi").2.2.2.2
      ⟨200, [1, 2, 3]⟩ rfl rfl (by decide)).2 (by decide)
    simpa using h
  · have h := (embed_dimension_normalization 3 (.ok ⟨500, [1, 2, 3]⟩) "hi").2.2.2.1
      ⟨500, [1, 2, 3]⟩ rfl (by decide)
    simpa using h
  · have h := (embed_dimension_normalization 3 (.ok ⟨200, [1, 2, 3]⟩) " ").2.1 (by decide)
    simpa using h
  · exact (embed_dimension_normalization 5 (.error (.other "down")) "hi").1

/-- C6: every chunk the scorer annotates gets
`score = similarity + ast_boost + file_boost`, the boosts coming from the
fixed tables (function/class/method `+0.15`, variable/constant/property
`+0.05`, import/comment `−0.10`, docstring and unknown types `0`;
.py/.js/.ts/.jsx/.tsx `+0.10`, .json/.yaml/.yml `+0.05`, .md/.txt `−0.05`,
unknown extensions `0`); every element of a successful `score_chunks` run is
such an annotated chunk; and two chunks with identical effective embeddings
and file paths whose `ast_type`s are `"function"` and `"import"` differ in
score by exactly `0.25`, the function chunk strictly higher. -/
theorem score_components_and_boosts (sq : ℚ → ℚ) (emb : String → List ℚ) (qe : List ℚ) :
    (∀ c : Chunk,
      (annotateChunk sq emb qe c).score =
        some ((annotateChunk sq emb qe c).similarity.getD 0 +
              (annotateChunk sq emb qe c).ast_boost.getD 0 +
              (annotateChunk sq emb qe c).file_boost.getD 0) ∧
      (annotateChunk sq emb qe c).ast_boost = some (astBoostOf (c.ast_type.getD "default")) ∧
      (annotateChunk sq emb qe c).file_boost = some (fileBoostOf (c.file_path.getD ""))) ∧
    (∀ (query : String) (l : List Chunk),
      ∀ p ∈ score_chunks sq emb query (l.map PyChunk.dict),
      ∃ c ∈ l, p = PyChunk.dict (annotateChunk sq emb (emb query) c)) ∧
    astBoostOf "function" = 0.15 ∧ astBoostOf "class" = 0.15 ∧ astBoostOf "method" = 0.15 ∧
    astBoostOf "variable" = 0.05 ∧ astBoostOf "constant" = 0.05 ∧
    astBoostOf "property" = 0.05 ∧ astBoostOf "import" = -0.1 ∧
    astBoostOf "comment" = -0.1 ∧ astBoostOf "docstring" = 0 ∧
    (∀ t, t ∉ astTableKeys → astBoostOf t = 0) ∧
    fileExtBoostOf ".py" = 0.1 ∧ fileExtBoostOf ".js" = 0.1 ∧ fileExtBoostOf ".ts" = 0.1 ∧
    fileExtBoostOf ".jsx" = 0.1 ∧ fileExtBoostOf ".tsx" = 0.1 ∧
    fileExtBoostOf ".json" = 0.05 ∧ fileExtBoostOf ".yaml" = 0.05 ∧
    fileExtBoostOf ".yml" = 0.05 ∧ fileExtBoostOf ".md" = -0.05 ∧
    fileExtBoostOf ".txt" = -0.05 ∧
    (∀ e, e ∉ fileTableKeys → fileExtBoostOf e = 0) ∧
    (∀ c1 c2 : Chunk, effEmbedding emb c1 = effEmbedding emb c2 →
      c1.file_path = c2.file_path →
      c1.ast_type = some "function" → c2.ast_type = some "import" →
      (annotateChunk sq emb qe c1).score.getD 0 =
        (annotateChunk sq emb qe c2).score.getD 0 + 0.25 ∧
      (annotateChunk sq emb qe c2).score.getD 0 <
        (annotateChunk sq emb qe c1).score.getD 0) := by
  refine ⟨?_, ?_, rfl, rfl, rfl, rfl, rfl, rfl, rfl, rfl, rfl, ?_,
    rfl, rfl, rfl, rfl, rfl, rfl, rfl, rfl, rfl, rfl, ?_, ?_⟩
  · intro c
    refine ⟨?_, rfl, rfl⟩
    simp [annotateChunk]
  · intro query l p hp
    by_cases hl : l = []
    · subst hl; simp [score_chunks] at hp
    · rw [score_chunks_dicts sq emb query l hl, List.mem_mergeSort] at hp
      obtain ⟨c, hc, rfl⟩ := List.mem_map.mp hp
      exact ⟨c, hc, rfl⟩
  · intro t ht
    simp only [astTableKeys, List.mem_cons, List.not_mem_nil, or_false, not_or] at ht
    obtain ⟨h1, h2, h3, h4, h5, h6, h7, h8, h9⟩ := ht
    simp [astBoostOf, h1, h2, h3, h4, h5, h6, h7, h8, h9]
  · intro e he
    simp only [fileTableKeys, List.mem_cons, List.not_mem_nil, or_false, not_or] at he
    obtain ⟨h1, h2, h3, h4, h5, h6, h7, h8, h9, h10⟩ := he
    simp [fileExtBoostOf, h1, h2, h3, h4, h5, h6, h7, h8, h9, h10]
  · intro c1 c2 he hf h1 h2
    constructor
    · simp [annotateChunk, he, hf, h1, h2, astBoostOf]
      ring
    · simp [annotateChunk, he, hf, h1, h2, astBoostOf]
      linarith

/-- C6 witness: the 0.25 gap at concrete chunks and concrete table lookups. -/
theorem score_components_and_boosts_witness :
    astBoostOf "function" = 0.15 ∧ astBoostOf "import" = -0.1 ∧
    astBoostOf "unknown-kind" = 0 ∧ fileExtBoostOf ".rs" = 0 ∧
    ((annotateChunk id (fun _ => [1]) [1]
        { ast_type := some "function", file_path := some "a.py",
          embedding := some [1] }).score.getD 0 =
      (annotateChunk id (fun _ => [1]) [1]
        { ast_type := some "import", file_path := some "a.py",
          embedding := some [1] }).score.getD 0 + 0.25) := by
  obtain ⟨_, _, hfn, _, _, _, _, _, himp, _, _, hunk, _, _, _, _, _, _, _, _, _, _, hfu, hgap⟩ :=
    score_components_and_boosts id (fun _ => [1]) [1]
  refine ⟨hfn, himp, hunk _ (by decide), hfu _ (by decide), ?_⟩
  exact (hgap { ast_type := some "function", file_path := some "a.py", embedding := some [1] }
    { ast_type := some "import", file_path := some "a.py", embedding := some [1] }
    rfl rfl rfl rfl).1

/-- C5: when retrieval hands `inject` a nonempty candidate set but the role
filter leaves nothing, the injector reverts to the full unfiltered candidate
set: its output is exactly the scored original candidate set truncated to
`maxChunks`. -/
theorem inject_empty_filter_fallback (sq : ℚ → ℚ) (emb : String → List ℚ)
    (role query : String) (maxChunks : Nat) (allChunks : List Chunk)
    (hne : allChunks ≠ [])
    (hf : roleFilterOf (pyToLower role) allChunks = []) :
    inject sq emb role (.ok allChunks) query maxChunks =
      (score_chunks sq emb query (allChunks.map PyChunk.dict)).take maxChunks := by
  have h1 : allChunks.isEmpty = false := by simp [List.isEmpty_iff, hne]
  simp [inject, h1, hf]

/-- C5 witness: a `backend`-role run over one candidate whose path matches
neither `"controller"` nor `"service"`. -/
theorem inject_empty_filter_fallback_witness :
    ([({ file_path := some "notes.md", ast_type := some "comment" } : Chunk)] ≠ []) ∧
    roleFilterOf (pyToLower "backend")
      [{ file_path := some "notes.md", ast_type := some "comment" }] = [] ∧
    inject id (fun _ => [1]) "backend"
      (.ok [{ file_path := some "notes.md", ast_type := some "comment" }]) "q" 10 =
      (score_chunks id (fun _ => [1]) "q"
        ([({ file_path := some "notes.md", ast_type := some "comment" } : Chunk)].map
          PyChunk.dict)).take 10 := by
  refine ⟨by decide, by decide, ?_⟩
  exact inject_empty_filter_fallback id (fun _ => [1]) "backend" "q" 10
    [{ file_path := some "notes.md", ast_type := some "comment" }] (by decide) (by decide)

theorem geaScore_trans (a b c : PyChunk) (h1 : geaScore a b) (h2 : geaScore b c) :
    geaScore a c := by
  simp only [geaScore, decide_eq_true_eq] at *
  exact le_trans h2 h1

theorem geaScore_total (a b : PyChunk) : geaScore a b || geaScore b a := by
  simp only [geaScore, Bool.or_eq_true, decide_eq_true_eq]
  exact le_total _ _

/-- C3: for a nonempty list of well-formed chunks the scorer returns a list
sorted by non-increasing score; moreover the sort is stable: the output
coincides with the position-tagged stable sort projected back, and in that
tagged sort any two entries with equal scores keep strictly increasing input
positions (input order preserved on ties). -/
theorem score_chunks_sorted_stable (sq : ℚ → ℚ) (emb : String → List ℚ)
    (query : String) (l : List Chunk) (h : l ≠ []) :
    (score_chunks sq emb query (l.map PyChunk.dict)).Pairwise
        (fun a b => pyScoreKey b ≤ pyScoreKey a) ∧
    score_chunks sq emb query (l.map PyChunk.dict) =
      (((l.map fun c => PyChunk.dict (annotateChunk sq emb (emb query) c)).enum.mergeSort
          (List.enumLE geaScore)).map fun p => p.2) ∧
    ((l.map fun c => PyChunk.dict (annotateChunk sq emb (emb query) c)).enum.mergeSort
        (List.enumLE geaScore)).Pairwise
      fun a b => pyScoreKey a.2 = pyScoreKey b.2 → a.1 < b.1 := by
  have hout : score_chunks sq emb query (l.map PyChunk.dict) =
      (l.map fun c => PyChunk.dict (annotateChunk sq emb (emb query) c)).mergeSort geaScore :=
    score_chunks_dicts sq emb query l h
  set ann := l.map fun c => PyChunk.dict (annotateChunk sq emb (emb query) c) with hann
  have htag : (ann.enum.mergeSort (List.enumLE geaScore)).Pairwise
      (fun a b => List.enumLE geaScore a b = true) :=
    List.sorted_mergeSort (@List.enumLE_trans PyChunk geaScore geaScore_trans)
      (@List.enumLE_total PyChunk geaScore geaScore_total) ann.enum
  have hperm : List.Perm (ann.enum.mergeSort (List.enumLE geaScore)) ann.enum :=
    List.mergeSort_perm _ _
  have hnodupfst :
      ((ann.enum.mergeSort (List.enumLE geaScore)).map Prod.fst).Nodup := by
    rw [(hperm.map Prod.fst).nodup_iff]
    rw [List.enum_map_fst]
    exact List.nodup_range _
  have hpne : (ann.enum.mergeSort (List.enumLE geaScore)).Pairwise
      fun a b => a.1 ≠ b.1 := List.pairwise_map.mp hnodupfst
  refine ⟨?_, ?_, ?_⟩
  · rw [hout]
    have := List.sorted_mergeSort geaScore_trans geaScore_total ann
    exact this.imp fun hab => by
      simpa [geaScore, decide_eq_true_eq] using hab
  · rw [hout, @List.mergeSort_enum PyChunk geaScore ann]
  · refine (htag.and hpne).imp ?_
    rintro a b ⟨h1, h2⟩ hkey
    simp only [List.enumLE, geaScore, decide_eq_true_eq] at h1
    rw [hkey] at h1
    simp at h1
    omega

/-- C3 witness: a concrete nonempty run. -/
theorem score_chunks_sorted_stable_witness :
    (score_chunks id (fun _ => [1]) "q"
        (([{ ast_type := some "import" }, { ast_type := some "function" }] :
            List Chunk).map PyChunk.dict)).Pairwise
      fun a b => pyScoreKey b ≤ pyScoreKey a :=
  (score_chunks_sorted_stable id (fun _ => [1]) "q"
    [{ ast_type := some "import" }, { ast_type := some "function" }] (by decide)).1

/-- C10: on a nonempty list of well-formed chunks that scores without an
internal error, `score_chunks` returns a permutation of the (in-place
annotated) input chunks: same length, every input chunk present in annotated
form and nothing else, each annotation carrying numeric `score`,
`similarity`, `ast_boost` and `file_boost` fields plus the cached embedding
(the chunk's own if present, else one computed from its content). -/
theorem score_chunks_permutation (sq : ℚ → ℚ) (emb : String → List ℚ)
    (query : String) (l : List Chunk) (h : l ≠ []) :
    List.Perm (score_chunks sq emb query (l.map PyChunk.dict))
      (l.map fun c => PyChunk.dict (annotateChunk sq emb (emb query) c)) ∧
    (score_chunks sq emb query (l.map PyChunk.dict)).length = l.length ∧
    (∀ c ∈ l,
      PyChunk.dict (annotateChunk sq emb (emb query) c) ∈
        score_chunks sq emb query (l.map PyChunk.dict)) ∧
    (∀ p ∈ score_chunks sq emb query (l.map PyChunk.dict),
      ∃ c ∈ l, p = PyChunk.dict (annotateChunk sq emb (emb query) c)) ∧
    (∀ c : Chunk,
      (annotateChunk sq emb (emb query) c).score.isSome ∧
      (annotateChunk sq emb (emb query) c).similarity.isSome ∧
      (annotateChunk sq emb (emb query) c).ast_boost.isSome ∧
      (annotateChunk sq emb (emb query) c).file_boost.isSome ∧
      (annotateChunk sq emb (emb query) c).embedding = some (effEmbedding emb c)) := by
  have hout : score_chunks sq emb query (l.map PyChunk.dict) =
      (l.map fun c => PyChunk.dict (annotateChunk sq emb (emb query) c)).mergeSort geaScore :=
    score_chunks_dicts sq emb query l h
  have hperm : List.Perm (score_chunks sq emb query (l.map PyChunk.dict))
      (l.map fun c => PyChunk.dict (annotateChunk sq emb (emb query) c)) := by
    rw [hout]; exact List.mergeSort_perm _ _
  refine ⟨hperm, ?_, ?_, ?_, ?_⟩
  · rw [hperm.length_eq, List.length_map]
  · intro c hc
    rw [hout, List.mem_mergeSort]
    exact List.mem_map_of_mem _ hc
  · intro p hp
    rw [hout, List.mem_mergeSort] at hp
    obtain ⟨c, hc, rfl⟩ := List.mem_map.mp hp
    exact ⟨c, hc, rfl⟩
  · intro c
    refine ⟨rfl, rfl, rfl, rfl, rfl⟩

/-- C10 witness: a concrete nonempty run. -/
theorem score_chunks_permutation_witness :
    (score_chunks id (fun _ => [2]) "w"
        (([{ content := some "x = 1" }] : List Chunk).map PyChunk.dict)).length = 1 :=
  (score_chunks_permutation id (fun _ => [2]) "w" [{ content := some "x = 1" }] (by decide)).2.1

theorem scoreMutate_with_bad (sq : ℚ → ℚ) (emb : String → List ℚ) (qe : List ℚ) :
    ∀ (l : List PyChunk), (∃ p ∈ l, isBadP p) →
      scoreMutate sq emb qe l =
        ((l.take (l.findIdx isBadP)).map (annotatePy sq emb qe) ++
          (l.drop (l.findIdx isBadP)).modifyHead (failStep emb), false)
  | [], hb => by simp at hb
  | .bad :: rest, hb => by
    simp [scoreMutate, isBadP, List.findIdx_cons, failStep]
  | .badBoost c :: rest, hb => by
    simp [scoreMutate, isBadP, List.findIdx_cons, failStep]
  | .dict c :: rest, hb => by
    have hb' : ∃ p ∈ rest, isBadP p := by
      obtain ⟨p, hp, hbp⟩ := hb
      rcases List.mem_cons.mp hp with h | h
      · subst h; simp [isBadP] at hbp
      · exact ⟨p, h, hbp⟩
    have ih := scoreMutate_with_bad sq emb qe rest hb'
    simp [scoreMutate, ih, isBadP, List.findIdx_cons, annotatePy]

/-- C9 counterexample: with a well-formed chunk followed by a malformed
element, the scoring loop annotates the first chunk in place before the
exception is raised, so the returned list is *not* the unscored input list —
the claim's "original, unsorted, unscored chunk list" fails in its
"unscored" part. -/
theorem score_chunks_fallback_not_unscored :
    score_chunks id (fun _ => []) "q" [PyChunk.dict {}, PyChunk.bad] ≠
      [PyChunk.dict {}, PyChunk.bad] := by
  decide

/-- C9 (amended): if an exception occurs during score computation,
`score_chunks` does not raise and returns the original chunk list, unsorted,
in its original order and length — but not necessarily unscored: the chunks
processed before the failing element keep their in-place score annotations,
and the failing element itself, when it is a dict raising in the boost
lookups, keeps its freshly cached embedding (`failStep`); elements after it
are unchanged. -/
theorem score_chunks_error_keeps_order (sq : ℚ → ℚ) (emb : String → List ℚ)
    (query : String) (l : List PyChunk) (hb : ∃ p ∈ l, isBadP p) :
    score_chunks sq emb query l =
      (l.take (l.findIdx isBadP)).map (annotatePy sq emb (emb query)) ++
        (l.drop (l.findIdx isBadP)).modifyHead (failStep emb) ∧
    (score_chunks sq emb query l).length = l.length := by
  have hne : l.isEmpty = false := by
    obtain ⟨p, hp, _⟩ := hb
    cases l
    · simp at hp
    · rfl
  have hm := scoreMutate_with_bad sq emb (emb query) l hb
  have heq : score_chunks sq emb query l =
      (l.take (l.findIdx isBadP)).map (annotatePy sq emb (emb query)) ++
        (l.drop (l.findIdx isBadP)).modifyHead (failStep emb) := by
    simp [score_chunks, hne, hm]
  refine ⟨heq, ?_⟩
  rw [heq]
  have hk : l.findIdx isBadP ≤ l.length := List.findIdx_le_length _
  simp [List.length_take, List.length_drop, List.length_modifyHead]
  omega

/-- C9 witness for the amended statement: a run whose second element is a
dict that raises in the boost lookups — order and length are kept, the first
chunk is annotated, the failing dict has its embedding cached, the third
element is untouched. -/
theorem score_chunks_error_keeps_order_witness :
    (∃ p ∈ [PyChunk.dict {}, PyChunk.badBoost {}, PyChunk.dict {}], isBadP p) ∧
    score_chunks id (fun _ => [3]) "q"
        [PyChunk.dict {}, PyChunk.badBoost {}, PyChunk.dict {}] =
      ([PyChunk.dict {}, PyChunk.badBoost {}, PyChunk.dict {}].take
          ([PyChunk.dict {}, PyChunk.badBoost {}, PyChunk.dict {}].findIdx isBadP)).map
        (annotatePy id (fun _ => [3]) [3]) ++
        ([PyChunk.dict {}, PyChunk.badBoost {}, PyChunk.dict {}].drop
          ([PyChunk.dict {}, PyChunk.badBoost {}, PyChunk.dict {}].findIdx isBadP)).modifyHead
          (failStep (fun _ => [3])) := by
  refine ⟨by decide, ?_⟩
  exact (score_chunks_error_keeps_order id (fun _ => [3]) "q"
    [PyChunk.dict {}, PyChunk.badBoost {}, PyChunk.dict {}] (by decide)).1

theorem fmtLoop_take (maxT : Nat) (meta : Bool) :
    ∀ (chunks : List Chunk) (total : Nat),
      fmtLoop maxT meta total chunks =
        (chunks.take (stopCount maxT total (chunks.map tokenEstimate))).map (fmtChunk meta)
  | [], total => rfl
  | c :: rest, total => by
    simp only [fmtLoop, stopCount, List.map_cons]
    by_cases hov : maxT < total + tokenEstimate c
    · simp [hov]
    · simp [hov, fmtLoop_take maxT meta rest (total + tokenEstimate c)]

theorem stopCount_stop_rule (maxT : Nat) :
    ∀ (ests : List Nat) (total : Nat), total ≤ maxT →
      total + (ests.take (stopCount maxT total ests)).sum ≤ maxT ∧
      (stopCount maxT total ests < ests.length →
        maxT < total + (ests.take (stopCount maxT total ests + 1)).sum)
  | [], total, ht => by simp [stopCount, ht]
  | e :: rest, total, ht => by
    simp only [stopCount]
    by_cases hov : maxT < total + e
    · simp [hov, ht]
      try omega
    · have ih := stopCount_stop_rule maxT rest (total + e) (by omega)
      simp only [if_neg hov, List.take_succ_cons, List.sum_cons, List.length_cons]
      constructor
      · omega
      · intro hlt
        have := ih.2 (by omega)
        omega

/-- C4: the formatter walks the chunks in order accumulating estimated word
counts and stops before the first chunk whose inclusion would push the total
over `maxTokens`: the included chunks are exactly a prefix, each rendered
whole (no partial truncation), the prefix total stays within the budget while
including the next chunk would exceed it; with word counts
`[3000, 3000, 3000]` and `maxTokens = 8000` exactly the first two chunks are
included; and the constructor default is 8000. -/
theorem format_chunks_token_budget (maxT : Nat) (meta : Bool) (chunks : List Chunk) :
    fmtLoop maxT meta 0 chunks =
      (chunks.take (stopCount maxT 0 (chunks.map tokenEstimate))).map (fmtChunk meta) ∧
    (chunks ≠ [] → format_chunks maxT meta chunks =
      String.intercalate "\n"
        ((chunks.take (stopCount maxT 0 (chunks.map tokenEstimate))).map (fmtChunk meta))) ∧
    ((chunks.map tokenEstimate).take (stopCount maxT 0 (chunks.map tokenEstimate))).sum ≤
      maxT ∧
    (stopCount maxT 0 (chunks.map tokenEstimate) < chunks.length →
      maxT < ((chunks.map tokenEstimate).take
        (stopCount maxT 0 (chunks.map tokenEstimate) + 1)).sum) ∧
    (chunks.map tokenEstimate = [3000, 3000, 3000] → maxT = 8000 →
      fmtLoop maxT meta 0 chunks = (chunks.take 2).map (fmtChunk meta)) ∧
    defaultMaxTokens = 8000 := by
  have hloop := fmtLoop_take maxT meta chunks 0
  have hrule := stopCount_stop_rule maxT (chunks.map tokenEstimate) 0 (Nat.zero_le _)
  refine ⟨hloop, ?_, by simpa using hrule.1, ?_, ?_, rfl⟩
  · intro hne
    have h1 : chunks.isEmpty = false := by simp [List.isEmpty_iff, hne]
    rw [format_chunks, if_neg (by simp [h1]), hloop]
  · intro hlt
    have := hrule.2 (by rwa [List.length_map])
    simpa using this
  · intro hmap hmaxT
    subst hmaxT
    rw [hloop, hmap]
    norm_num [stopCount]

theorem splitWsGo_wordsChars (n : Nat) : (splitWsGo (wordsChars n) []).length = n := by
  induction n with
  | zero => rfl
  | succ k ih =>
    show (splitWsGo (List.flatten (List.replicate (k + 1) ['a', ' '])) []).length = k + 1
    rw [List.replicate_succ, List.flatten_cons]
    show (splitWsGo ('a' :: ' ' :: wordsChars k) []).length = k + 1
    rw [show splitWsGo ('a' :: ' ' :: wordsChars k) [] =
        ['a'] :: splitWsGo (wordsChars k) [] from rfl]
    simp [ih]

theorem tokenEstimate_bigChunk : tokenEstimate bigChunk = 3000 := by
  show (List.map (fun w => (⟨w⟩ : String)) (splitWsGo (wordsChars 3000) [])).length = 3000
  rw [List.length_map]
  exact splitWsGo_wordsChars 3000

/-- C4 witness: three 3000-word chunks against the 8000 default: exactly the
first two are included, whole. -/
theorem format_chunks_token_budget_witness :
    [bigChunk, bigChunk, bigChunk].map tokenEstimate = [3000, 3000, 3000] ∧
    fmtLoop 8000 true 0 [bigChunk, bigChunk, bigChunk] =
      ([bigChunk, bigChunk, bigChunk].take 2).map (fmtChunk true) := by
  have hm : [bigChunk, bigChunk, bigChunk].map tokenEstimate = [3000, 3000, 3000] := by
    simp [tokenEstimate_bigChunk]
  exact ⟨hm, (format_chunks_token_budget 8000 true [bigChunk, bigChunk, bigChunk]).2.2.2.2.1 hm rfl⟩
